import Mathlib

/-!
Shallow embedding of `shell/browser/ui/views/linux_frame_layout.cc` /
`linux_frame_layout.h` (electron): the Linux client-side-decoration (CSD)
frame-layout strategies and the free paint helper.

Toolkit collaborators (gfx geometry types, the window, the window tree host,
the Linux UI theme and its window-frame provider, the layout provider's shadow
tables, the view's color provider) are modelled as explicit data passed in a
`ToolkitEnv`; a collaborator the code obtains through a pointer that may be
null is an `Option`.  Machine ints are modelled as `Int` (the quantities here
are small DIP counts, far from overflow); the float arithmetic in the custom
frame's shadow-extent computation is modelled exactly over `Rat`.
-/

namespace LinuxFrame

/-- `gfx::Insets`, field order as in `gfx::Insets::TLBR(top, left, bottom, right)`. -/
structure Insets where
  top : Int
  left : Int
  bottom : Int
  right : Int
deriving Repr, DecidableEq

namespace Insets

/-- `gfx::Insets::TLBR`. -/
def TLBR (t l b r : Int) : Insets := ⟨t, l, b, r⟩

/-- `gfx::Insets(v)`: uniform insets on all four sides. -/
def uniform (v : Int) : Insets := ⟨v, v, v, v⟩

/-- `gfx::Insets()`: default-constructed, all sides zero. -/
def zero : Insets := uniform 0

/-- `gfx::InsetsOutsetsBase::IsEmpty`: all four components are zero. -/
def IsEmpty (i : Insets) : Bool :=
  i.left == 0 && i.top == 0 && i.right == 0 && i.bottom == 0

/-- Unary `operator-` on `gfx::Insets`. -/
def neg (i : Insets) : Insets := ⟨-i.top, -i.left, -i.bottom, -i.right⟩

end Insets

/-- `gfx::Rect` (integer geometry; sizes are clamped nonnegative by the ops below). -/
structure Rect where
  x : Int
  y : Int
  w : Int
  h : Int
deriving Repr, DecidableEq

namespace Rect

def right (r : Rect) : Int := r.x + r.w

def bottom (r : Rect) : Int := r.y + r.h

/-- `gfx::Rect::IsEmpty`: zero width or zero height. -/
def IsEmpty (r : Rect) : Bool := r.w == 0 || r.h == 0

/-- `gfx::Rect::Inset(insets)`: move the origin by (left, top) and shrink the
size by the insets' width/height, clamping the size at zero. -/
def Inset (r : Rect) (i : Insets) : Rect :=
  { x := r.x + i.left
    y := r.y + i.top
    w := max 0 (r.w - (i.left + i.right))
    h := max 0 (r.h - (i.top + i.bottom)) }

/-- `gfx::Rect::SetByBounds(left, top, right, bottom)`. -/
def SetByBounds (l t r b : Int) : Rect := ⟨l, t, max 0 (r - l), max 0 (b - t)⟩

/-- `gfx::Rect::Union`: an empty rect is the identity; otherwise the bounding box. -/
def Union (a b : Rect) : Rect :=
  if a.IsEmpty then b
  else if b.IsEmpty then a
  else SetByBounds (min a.x b.x) (min a.y b.y) (max a.right b.right) (max a.bottom b.bottom)

/-- `gfx::Rect()`: default-constructed empty rect at the origin. -/
def zeroRect : Rect := ⟨0, 0, 0, 0⟩

end Rect

/-- `gfx::InsetsF`, modelled exactly over the rationals. -/
structure InsetsF where
  top : Rat
  left : Rat
  bottom : Rat
  right : Rat
deriving Repr, DecidableEq

namespace InsetsF

/-- `gfx::InsetsF(v)`: uniform float insets. -/
def uniform (v : Rat) : InsetsF := ⟨v, v, v, v⟩

/-- Unary `operator-` on `gfx::InsetsF`. -/
def neg (i : InsetsF) : InsetsF := ⟨-i.top, -i.left, -i.bottom, -i.right⟩

end InsetsF

/-- `gfx::RectF`, modelled exactly over the rationals. -/
structure RectF where
  x : Rat
  y : Rat
  w : Rat
  h : Rat
deriving Repr, DecidableEq

namespace RectF

/-- `gfx::RectF()`. -/
def zeroRect : RectF := ⟨0, 0, 0, 0⟩

/-- `gfx::RectF::Inset(insets)`, size clamped at zero like `gfx::SizeF`. -/
def Inset (r : RectF) (i : InsetsF) : RectF :=
  { x := r.x + i.left
    y := r.y + i.top
    w := max 0 (r.w - (i.left + i.right))
    h := max 0 (r.h - (i.top + i.bottom)) }

/-- `gfx::RectF::set_origin`: move the origin, keep the size. -/
def set_origin (r : RectF) (nx ny : Rat) : RectF := { r with x := nx, y := ny }

end RectF

/-- `gfx::ToEnclosingRect`: floor the origin, ceil the far edges (an edge of a
zero-extent side stays at the floored origin). -/
def ToEnclosingRect (r : RectF) : Rect :=
  let l : Int := Rat.floor r.x
  let t : Int := Rat.floor r.y
  let rr : Int := if r.w == 0 then l else Rat.ceil (r.x + r.w)
  let b : Int := if r.h == 0 then t else Rat.ceil (r.y + r.h)
  Rect.SetByBounds l t rr b

/-- One `gfx::ShadowValue`: an integer 2-d offset and a float blur. -/
structure ShadowValue where
  offsetX : Int
  offsetY : Int
  blur : Rat
deriving Repr, DecidableEq

/-- `SkRRect` as used here: a rect plus one radius per corner, in Skia's
upper-left, upper-right, lower-right, lower-left order (every radius set by
this code has equal x and y components, so one value per corner suffices). -/
structure RRect where
  rect : Rect
  upperLeft : Int
  upperRight : Int
  lowerRight : Int
  lowerLeft : Int
deriving Repr, DecidableEq

namespace RRect

/-- `SkRRect::setRect`: all corner radii zero. -/
def setRect (r : Rect) : RRect := ⟨r, 0, 0, 0, 0⟩

/-- `SkRRect::setRectRadii` for the radii this code passes. -/
def setRectRadii (r : Rect) (ul ur lr ll : Int) : RRect := ⟨r, ul, ur, lr, ll⟩

end RRect

/-- `ui::WindowFrameProvider`: the two getters this code uses. -/
structure WindowFrameProvider where
  GetFrameThicknessDip : Insets
  GetTopCornerRadiusDip : Int
deriving Repr, DecidableEq

/-- `ui::LinuxUiTheme`: `GetWindowFrameProvider(solid_frame, tiled, maximized)`. -/
structure LinuxUiTheme where
  GetWindowFrameProvider : Bool → Bool → Bool → WindowFrameProvider

/-- `ElectronDesktopWindowTreeHostLinux`: the one query this code makes of it. -/
structure TreeHost where
  SupportsClientFrameShadow : Bool
deriving Repr, DecidableEq

/-- The `NativeWindowViews` state read through the `window_` pointer, plus the
widget bounds read via `window_->widget()->GetWindowBoundsInScreen()`. -/
structure NativeWindow where
  IsMaximized : Bool
  IsFullscreen : Bool
  IsTranslucent : Bool
  widgetWindowBoundsInScreen : Rect
deriving Repr, DecidableEq

/-- The ambient toolkit state every query reads through pointers or globals:
`x11_util::IsX11()`, `base::i18n::IsRTL()`, the window, the window tree host
for the widget (null when absent), `ui::LinuxUiTheme::GetForProfile(nullptr)`
(null when absent), and the `views::LayoutProvider` shadow machinery used by
`GetFrameShadowValuesLinux`. -/
structure ToolkitEnv where
  isX11 : Bool
  isRTL : Bool
  window : NativeWindow
  treeHost : Option TreeHost
  linuxUiTheme : Option LinuxUiTheme
  GetShadowElevationMetric : Bool → Int
  MakeMdShadowValues : Int → List ShadowValue

/-- Constants from the anonymous namespace of `linux_frame_layout.cc`. -/
def kResizeBorder : Int := 10

def kResizeInsideBoundsSize : Int := 5

def kDefaultCustomFrameBorder : Insets := Insets.TLBR 2 1 1 1

def kBorderAlpha : Int := 0x26

/-- `GetFrameShadowValuesLinux(active)`: elevation from the layout provider
(`kMaximum` emphasis when active, `kMedium` otherwise), then
`gfx::ShadowValue::MakeMdShadowValues(elevation)`. -/
def GetFrameShadowValuesLinux (env : ToolkitEnv) (active : Bool) : List ShadowValue :=
  env.MakeMdShadowValues (env.GetShadowElevationMetric active)

/-- `LinuxFrameLayout::CSDStyle`. -/
inductive CSDStyle
  | kNativeFrame
  | kCustom
deriving Repr, DecidableEq, BEq

/-- The per-object state of `LinuxCSDBaseLayout` (and its two subclasses):
the mutable `tiled_` flag and the `host_supports_client_frame_shadow_` flag
cached by the constructor.  The `window_` pointer is read through the
current `ToolkitEnv` at query time. -/
structure CSDState where
  tiled : Bool
  host_supports_client_frame_shadow : Bool
deriving Repr, DecidableEq

/-- The per-object state of `LinuxUndecoratedFrameLayout`: just `tiled_`. -/
structure UndecoratedState where
  tiled : Bool
deriving Repr, DecidableEq

namespace LinuxCSDBaseLayout

/-- `LinuxCSDBaseLayout::SupportsClientFrameShadow`: false when the tree host
for the widget is absent, otherwise forwarded to the host. -/
def SupportsClientFrameShadow (env : ToolkitEnv) : Bool :=
  match env.treeHost with
  | none => false
  | some host => host.SupportsClientFrameShadow

/-- The `LinuxCSDBaseLayout` constructor: `tiled_` defaults to false and
`host_supports_client_frame_shadow_` is sampled once, at construction. -/
def mk (env : ToolkitEnv) : CSDState :=
  { tiled := false, host_supports_client_frame_shadow := SupportsClientFrameShadow env }

/-- `LinuxCSDBaseLayout::IsShowingShadow`. -/
def IsShowingShadow (st : CSDState) (env : ToolkitEnv) : Bool :=
  st.host_supports_client_frame_shadow && !env.window.IsMaximized &&
    !env.window.IsFullscreen

/-- `LinuxCSDBaseLayout::GetInputInsets`. -/
def GetInputInsets (st : CSDState) (env : ToolkitEnv) : Insets :=
  Insets.uniform (if IsShowingShadow st env then kResizeBorder else 0)

/-- The `expand_if_visible` lambda inside `NormalizeBorderInsets`. -/
def expand_if_visible (side_thickness min_band : Int) : Int :=
  if side_thickness > 0 then max side_thickness min_band else 0

/-- `LinuxCSDBaseLayout::NormalizeBorderInsets`; the ambient `base::i18n::IsRTL()`
is the explicit `isRTL` argument.  In RTL mode the merged left and right
components are swapped by the final `gfx::Insets::TLBR` call. -/
def NormalizeBorderInsets (frame_insets input_insets : Insets) (isRTL : Bool) : Insets :=
  let merged : Insets :=
    { top := expand_if_visible frame_insets.top input_insets.top
      left := expand_if_visible frame_insets.left input_insets.left
      bottom := expand_if_visible frame_insets.bottom input_insets.bottom
      right := expand_if_visible frame_insets.right input_insets.right }
  if isRTL then Insets.TLBR merged.top merged.right merged.bottom merged.left
  else merged

/-- `LinuxCSDBaseLayout::GetTranslucentTopAreaHeight`. -/
def GetTranslucentTopAreaHeight : Int := 0

/-- `LinuxCSDBaseLayout::tiled`. -/
def tiled (st : CSDState) : Bool := st.tiled

/-- `LinuxCSDBaseLayout::set_tiled`. -/
def set_tiled (st : CSDState) (t : Bool) : CSDState := { st with tiled := t }

end LinuxCSDBaseLayout

namespace LinuxCSDNativeFrameLayout

/-- `LinuxCSDNativeFrameLayout::GetFrameProvider`: looks up the Linux UI theme
(`GetForProfile(nullptr)`) and asks it for the frame provider.  The theme
pointer is dereferenced without a null check, so an absent theme is `none`
here (the call would crash). -/
def GetFrameProvider (st : CSDState) (env : ToolkitEnv) : Option WindowFrameProvider :=
  env.linuxUiTheme.map fun theme =>
    theme.GetWindowFrameProvider (!st.host_supports_client_frame_shadow) st.tiled
      env.window.IsMaximized

/-- `LinuxCSDNativeFrameLayout::RestoredFrameBorderInsets`: normalize the frame
provider's thickness against the input insets.  `none` when the theme is
absent (the unguarded `GetFrameProvider()->` dereference). -/
def RestoredFrameBorderInsets (st : CSDState) (env : ToolkitEnv) : Option Insets :=
  let input_insets := LinuxCSDBaseLayout.GetInputInsets st env
  (GetFrameProvider st env).map fun fp =>
    LinuxCSDBaseLayout.NormalizeBorderInsets fp.GetFrameThicknessDip input_insets env.isRTL

/-- `LinuxCSDBaseLayout::GetWindowBounds` as dispatched for the native layout:
widget bounds inset by the (fallible) restored frame border insets. -/
def GetWindowBounds (st : CSDState) (env : ToolkitEnv) : Option Rect :=
  (RestoredFrameBorderInsets st env).map fun insets =>
    env.window.widgetWindowBoundsInScreen.Inset insets

/-- `LinuxCSDNativeFrameLayout::GetRoundedWindowBounds`: when not maximized the
two top corners get the frame provider's top corner radius and the bottom
corners stay square; when maximized all corners are square. -/
def GetRoundedWindowBounds (st : CSDState) (env : ToolkitEnv) : Option RRect :=
  (GetWindowBounds st env).bind fun wb =>
    if !env.window.IsMaximized then
      (GetFrameProvider st env).map fun fp =>
        RRect.setRectRadii wb fp.GetTopCornerRadiusDip fp.GetTopCornerRadiusDip 0 0
    else
      some (RRect.setRect wb)

end LinuxCSDNativeFrameLayout

namespace LinuxCSDCustomFrameLayout

/-- `LinuxCSDCustomFrameLayout::RestoredFrameBorderInsets`: start from
`kDefaultCustomFrameBorder`; when showing a shadow, grow the border to cover
the shadow extents (unless tiled, where the shadow value list is empty) and
the input region; otherwise zero the top; finally normalize. -/
def RestoredFrameBorderInsets (st : CSDState) (env : ToolkitEnv) : Insets :=
  let input_insets := LinuxCSDBaseLayout.GetInputInsets st env
  let showing_shadow := LinuxCSDBaseLayout.IsShowingShadow st env
  let frame_insets : Insets :=
    if showing_shadow then
      let shadow_values : List ShadowValue :=
        if st.tiled then [] else GetFrameShadowValuesLinux env true
      let frame_extents : Rect :=
        shadow_values.foldl
          (fun (acc : Rect) (shadow_value : ShadowValue) =>
            let shadow_radius : Rat := shadow_value.blur / 4
            let shadow_insets : InsetsF := InsetsF.uniform shadow_radius
            let shadow_extents : RectF := RectF.zeroRect.Inset shadow_insets.neg
            let shadow_extents : RectF :=
              shadow_extents.set_origin (shadow_extents.x + shadow_value.offsetX)
                (shadow_extents.y + shadow_value.offsetY)
            acc.Union (ToEnclosingRect shadow_extents))
          Rect.zeroRect
      let input_extents : Rect := Rect.zeroRect.Inset input_insets.neg
      let frame_extents := frame_extents.Union input_extents
      Insets.TLBR (-frame_extents.y) (-frame_extents.x) frame_extents.bottom
        frame_extents.right
    else
      { kDefaultCustomFrameBorder with top := 0 }
  LinuxCSDBaseLayout.NormalizeBorderInsets frame_insets input_insets env.isRTL

/-- `LinuxCSDBaseLayout::GetWindowBounds` as dispatched for the custom layout. -/
def GetWindowBounds (st : CSDState) (env : ToolkitEnv) : Rect :=
  env.window.widgetWindowBoundsInScreen.Inset (RestoredFrameBorderInsets st env)

/-- `LinuxCSDCustomFrameLayout::GetRoundedWindowBounds`: square corners. -/
def GetRoundedWindowBounds (st : CSDState) (env : ToolkitEnv) : RRect :=
  RRect.setRect (GetWindowBounds st env)

end LinuxCSDCustomFrameLayout

namespace LinuxUndecoratedFrameLayout

/-- `LinuxUndecoratedFrameLayout::RestoredFrameBorderInsets`: `gfx::Insets()`. -/
def RestoredFrameBorderInsets : Insets := Insets.zero

/-- `LinuxUndecoratedFrameLayout::GetInputInsets`. -/
def GetInputInsets : Insets := Insets.uniform kResizeInsideBoundsSize

/-- `LinuxUndecoratedFrameLayout::IsShowingShadow`. -/
def IsShowingShadow : Bool := false

/-- `LinuxUndecoratedFrameLayout::SupportsClientFrameShadow`. -/
def SupportsClientFrameShadow : Bool := false

/-- `LinuxUndecoratedFrameLayout::tiled`. -/
def tiled (st : UndecoratedState) : Bool := st.tiled

/-- `LinuxUndecoratedFrameLayout::set_tiled`. -/
def set_tiled (st : UndecoratedState) (t : Bool) : UndecoratedState := { st with tiled := t }

/-- `LinuxUndecoratedFrameLayout::GetWindowBounds`: the widget bounds. -/
def GetWindowBounds (env : ToolkitEnv) : Rect := env.window.widgetWindowBoundsInScreen

/-- `LinuxUndecoratedFrameLayout::GetRoundedWindowBounds`: square corners. -/
def GetRoundedWindowBounds (env : ToolkitEnv) : RRect :=
  RRect.setRect (GetWindowBounds env)

/-- `LinuxUndecoratedFrameLayout::GetTranslucentTopAreaHeight`. -/
def GetTranslucentTopAreaHeight : Int := 0

end LinuxUndecoratedFrameLayout

/-- A `LinuxFrameLayout` object: one of the three concrete strategies together
with its state. -/
inductive Layout
  | csdNative (st : CSDState)
  | csdCustom (st : CSDState)
  | undecorated (st : UndecoratedState)
deriving Repr, DecidableEq

namespace Layout

/-- Virtual dispatch of `RestoredFrameBorderInsets`; `none` models the native
layout's crash on an absent theme. -/
def RestoredFrameBorderInsets (l : Layout) (env : ToolkitEnv) : Option Insets :=
  match l with
  | .csdNative st => LinuxCSDNativeFrameLayout.RestoredFrameBorderInsets st env
  | .csdCustom st => some (LinuxCSDCustomFrameLayout.RestoredFrameBorderInsets st env)
  | .undecorated _ => some LinuxUndecoratedFrameLayout.RestoredFrameBorderInsets

/-- Virtual dispatch of `GetInputInsets`. -/
def GetInputInsets (l : Layout) (env : ToolkitEnv) : Insets :=
  match l with
  | .csdNative st => LinuxCSDBaseLayout.GetInputInsets st env
  | .csdCustom st => LinuxCSDBaseLayout.GetInputInsets st env
  | .undecorated _ => LinuxUndecoratedFrameLayout.GetInputInsets

/-- `LinuxFrameLayout::GetResizeBorderInsets` (non-virtual, on the base):
the restored frame border insets, or the input insets when those are empty. -/
def GetResizeBorderInsets (l : Layout) (env : ToolkitEnv) : Option Insets :=
  (l.RestoredFrameBorderInsets env).map fun insets =>
    if insets.IsEmpty then l.GetInputInsets env else insets

/-- Virtual dispatch of `IsShowingShadow`. -/
def IsShowingShadow (l : Layout) (env : ToolkitEnv) : Bool :=
  match l with
  | .csdNative st => LinuxCSDBaseLayout.IsShowingShadow st env
  | .csdCustom st => LinuxCSDBaseLayout.IsShowingShadow st env
  | .undecorated _ => LinuxUndecoratedFrameLayout.IsShowingShadow

/-- Virtual dispatch of `SupportsClientFrameShadow` (queries the current env
for the CSD layouts; constant false for the undecorated layout). -/
def SupportsClientFrameShadow (l : Layout) (env : ToolkitEnv) : Bool :=
  match l with
  | .csdNative _ => LinuxCSDBaseLayout.SupportsClientFrameShadow env
  | .csdCustom _ => LinuxCSDBaseLayout.SupportsClientFrameShadow env
  | .undecorated _ => LinuxUndecoratedFrameLayout.SupportsClientFrameShadow

/-- Virtual dispatch of `tiled`. -/
def tiled (l : Layout) : Bool :=
  match l with
  | .csdNative st => LinuxCSDBaseLayout.tiled st
  | .csdCustom st => LinuxCSDBaseLayout.tiled st
  | .undecorated st => LinuxUndecoratedFrameLayout.tiled st

/-- Virtual dispatch of `set_tiled`: the one mutator. -/
def set_tiled (l : Layout) (t : Bool) : Layout :=
  match l with
  | .csdNative st => .csdNative (LinuxCSDBaseLayout.set_tiled st t)
  | .csdCustom st => .csdCustom (LinuxCSDBaseLayout.set_tiled st t)
  | .undecorated st => .undecorated (LinuxUndecoratedFrameLayout.set_tiled st t)

/-- Virtual dispatch of `GetWindowBounds`. -/
def GetWindowBounds (l : Layout) (env : ToolkitEnv) : Option Rect :=
  match l with
  | .csdNative st => LinuxCSDNativeFrameLayout.GetWindowBounds st env
  | .csdCustom st => some (LinuxCSDCustomFrameLayout.GetWindowBounds st env)
  | .undecorated _ => some (LinuxUndecoratedFrameLayout.GetWindowBounds env)

/-- Virtual dispatch of `GetRoundedWindowBounds`. -/
def GetRoundedWindowBounds (l : Layout) (env : ToolkitEnv) : Option RRect :=
  match l with
  | .csdNative st => LinuxCSDNativeFrameLayout.GetRoundedWindowBounds st env
  | .csdCustom st => some (LinuxCSDCustomFrameLayout.GetRoundedWindowBounds st env)
  | .undecorated _ => some (LinuxUndecoratedFrameLayout.GetRoundedWindowBounds env)

/-- Virtual dispatch of `GetTranslucentTopAreaHeight`. -/
def GetTranslucentTopAreaHeight (l : Layout) : Int :=
  match l with
  | .csdNative _ => LinuxCSDBaseLayout.GetTranslucentTopAreaHeight
  | .csdCustom _ => LinuxCSDBaseLayout.GetTranslucentTopAreaHeight
  | .undecorated _ => LinuxUndecoratedFrameLayout.GetTranslucentTopAreaHeight

/-- Is this object the undecorated strategy? -/
def isUndecorated (l : Layout) : Bool :=
  match l with
  | .undecorated _ => true
  | _ => false

/-- Is this object the custom-frame strategy? -/
def isCSDCustom (l : Layout) : Bool :=
  match l with
  | .csdCustom _ => true
  | _ => false

/-- Is this object the native-frame strategy? -/
def isCSDNative (l : Layout) : Bool :=
  match l with
  | .csdNative _ => true
  | _ => false

end Layout

namespace LinuxFrameLayout

/-- `LinuxFrameLayout::Create`: undecorated on X11, for translucent windows or
when no shadow is wanted; otherwise custom when `csd_style == kCustom`, and
native in every remaining case. -/
def Create (env : ToolkitEnv) (wants_shadow : Bool) (csd_style : CSDStyle) : Layout :=
  if env.isX11 || env.window.IsTranslucent || !wants_shadow then
    .undecorated { tiled := false }
  else if csd_style == CSDStyle.kCustom then
    .csdCustom (LinuxCSDBaseLayout.mk env)
  else
    .csdNative (LinuxCSDBaseLayout.mk env)

end LinuxFrameLayout

/-- `ui::ColorProvider` color ids used by `PaintRestoredFrameBorderLinux`. -/
inductive ColorId
  | kColorFrameActive
  | kColorFrameInactive
deriving Repr, DecidableEq

/-- `ui::ColorProvider`: `GetColor`, returning an `SkColor` (modelled as `Int`). -/
structure ColorProvider where
  GetColor : ColorId → Int

namespace PaintRestoredFrameBorderLinux

/-- The frame-color lookup of `PaintRestoredFrameBorderLinux`:
`color_provider->GetColor(is_active ? ui::kColorFrameActive : ui::kColorFrameInactive)`.
`view.GetColorProvider()` can return null (a view outside a widget); the code
dereferences it without a guard, so an absent provider is `none` here (the
lookup would crash rather than produce a default color). -/
def frameColor (color_provider : Option ColorProvider) (is_active : Bool) : Option Int :=
  color_provider.map fun cp =>
    cp.GetColor (if is_active then ColorId.kColorFrameActive else ColorId.kColorFrameInactive)

end PaintRestoredFrameBorderLinux

/-- Names of the const queries of the `LinuxFrameLayout` interface. -/
inductive QueryId
  | restoredFrameBorderInsets
  | getInputInsets
  | getResizeBorderInsets
  | isShowingShadow
  | getWindowBounds
  | getRoundedWindowBounds
  | getTranslucentTopAreaHeight
deriving Repr, DecidableEq

/-- The (heterogeneous) result of one query. -/
inductive QueryResult
  | insetsResult (v : Option Insets)
  | plainInsetsResult (v : Insets)
  | flagResult (v : Bool)
  | heightResult (v : Int)
  | rectResult (v : Option Rect)
  | rrectResult (v : Option RRect)
deriving Repr, DecidableEq

namespace Layout

/-- Run one const query on a layout object against the current toolkit state,
returning the result together with the object afterwards.  The source methods
are const and touch no mutable member, which the embedding records by
returning the object unchanged. -/
def runQuery (l : Layout) (q : QueryId) (env : ToolkitEnv) : QueryResult × Layout :=
  match q with
  | .restoredFrameBorderInsets => (.insetsResult (l.RestoredFrameBorderInsets env), l)
  | .getInputInsets => (.plainInsetsResult (l.GetInputInsets env), l)
  | .getResizeBorderInsets => (.insetsResult (l.GetResizeBorderInsets env), l)
  | .isShowingShadow => (.flagResult (l.IsShowingShadow env), l)
  | .getWindowBounds => (.rectResult (l.GetWindowBounds env), l)
  | .getRoundedWindowBounds => (.rrectResult (l.GetRoundedWindowBounds env), l)
  | .getTranslucentTopAreaHeight => (.heightResult l.GetTranslucentTopAreaHeight, l)

end Layout

/-- The per-side rule claim C2 states for `NormalizeBorderInsets`, taken from
the spec's words: on each side independently, the result is
max(frame side, input side) when that frame side is positive and 0 when it is
zero or negative.  Kept separate from the source-derived definition so the two
can be compared. -/
def normalizeBorderInsetsPerSideSpec (frame input : Insets) : Insets :=
  { top := if frame.top > 0 then max frame.top input.top else 0
    left := if frame.left > 0 then max frame.left input.left else 0
    bottom := if frame.bottom > 0 then max frame.bottom input.bottom else 0
    right := if frame.right > 0 then max frame.right input.right else 0 }

/-- A sample restored, opaque, non-tiled window. -/
def sampleWindow : NativeWindow := ⟨false, false, false, ⟨0, 0, 800, 600⟩⟩

/-- A sample Linux UI theme whose frame provider reports a uniform 10-DIP
frame thickness and a 12-DIP top corner radius. -/
def sampleTheme : LinuxUiTheme := ⟨fun _ _ _ => ⟨Insets.TLBR 10 10 10 10, 12⟩⟩

/-- A Wayland-style toolkit state with every collaborator present and a tree
host that supports client-frame shadows. -/
def sampleEnv : ToolkitEnv :=
  ⟨false, false, sampleWindow, some ⟨true⟩, some sampleTheme, fun _ => 0, fun _ => []⟩

/-- The same toolkit state with the window tree host absent. -/
def sampleEnvNoTreeHost : ToolkitEnv :=
  ⟨false, false, sampleWindow, none, some sampleTheme, fun _ => 0, fun _ => []⟩

/-- A toolkit state with both the window tree host and the Linux UI theme absent. -/
def sampleEnvNoToolkit : ToolkitEnv :=
  ⟨false, false, sampleWindow, none, none, fun _ => 0, fun _ => []⟩

/-- `Insets.IsEmpty` holds exactly when all four sides are zero. -/
theorem Insets.IsEmpty_iff (i : Insets) :
    i.IsEmpty = true ↔ (i.top = 0 ∧ i.left = 0 ∧ i.bottom = 0 ∧ i.right = 0) := by
  simp only [Insets.IsEmpty, Bool.and_eq_true, beq_iff_eq]
  tauto

/-- C1: `LinuxFrameLayout::Create` returns the undecorated layout exactly when
the display server is X11, or the window is translucent, or `wants_shadow` is
false; otherwise the custom-frame layout exactly when `csd_style` is `kCustom`,
and the native-frame layout in every remaining case. -/
theorem C1_create_selects_scheme (env : ToolkitEnv) (wants_shadow : Bool)
    (csd_style : CSDStyle) :
    ((LinuxFrameLayout.Create env wants_shadow csd_style).isUndecorated
        = (env.isX11 || env.window.IsTranslucent || !wants_shadow))
    ∧ ((LinuxFrameLayout.Create env wants_shadow csd_style).isCSDCustom
        = (!(env.isX11 || env.window.IsTranslucent || !wants_shadow)
            && (csd_style == CSDStyle.kCustom)))
    ∧ ((LinuxFrameLayout.Create env wants_shadow csd_style).isCSDNative
        = (!(env.isX11 || env.window.IsTranslucent || !wants_shadow)
            && !(csd_style == CSDStyle.kCustom))) := by
  unfold LinuxFrameLayout.Create
  cases hx : env.isX11 <;> cases ht : env.window.IsTranslucent <;>
    cases wants_shadow <;> cases csd_style <;> exact ⟨rfl, rfl, rfl⟩

/-- C2, counterexample: in RTL mode `NormalizeBorderInsets` swaps the left and
right results, so the claimed side-by-side rule fails for frame insets that
are nonzero only on the left. -/
theorem C2_counterexample_rtl_swaps_sides :
    LinuxCSDBaseLayout.NormalizeBorderInsets (Insets.TLBR 0 2 0 0) Insets.zero true
      ≠ normalizeBorderInsetsPerSideSpec (Insets.TLBR 0 2 0 0) Insets.zero := by
  decide

/-- C2, amended: `NormalizeBorderInsets` applies the claimed per-side rule
(each side becomes max(frame side, input side) when the frame side is positive
and 0 otherwise) when the UI direction is LTR; in RTL mode the left and right
results of that rule are swapped. -/
theorem C2_normalize_expands_per_side (frame input : Insets) (isRTL : Bool) :
    LinuxCSDBaseLayout.NormalizeBorderInsets frame input isRTL
      = (if isRTL then
          Insets.TLBR (normalizeBorderInsetsPerSideSpec frame input).top
            (normalizeBorderInsetsPerSideSpec frame input).right
            (normalizeBorderInsetsPerSideSpec frame input).bottom
            (normalizeBorderInsetsPerSideSpec frame input).left
        else normalizeBorderInsetsPerSideSpec frame input) := by
  cases isRTL <;> rfl

/-- C3: the undecorated layout's `RestoredFrameBorderInsets` is zero on all
four sides, for every window state (maximized, fullscreen, tiled or not). -/
theorem C3_undecorated_restored_insets_zero (st : UndecoratedState) (env : ToolkitEnv) :
    (Layout.undecorated st).RestoredFrameBorderInsets env = some (Insets.TLBR 0 0 0 0) := rfl

/-- C4: for both CSD layouts, `IsShowingShadow` holds exactly when the host
supports client-frame shadows (the flag sampled by the constructor) and the
window is neither maximized nor fullscreen; `GetInputInsets` is a uniform
10-pixel inset when showing a shadow and zero insets otherwise; the
undecorated layout never shows a shadow. -/
theorem C4_shadow_and_input_insets (st : CSDState) (ust : UndecoratedState)
    (env : ToolkitEnv) :
    ((Layout.csdNative st).IsShowingShadow env
        = (st.host_supports_client_frame_shadow && !env.window.IsMaximized
            && !env.window.IsFullscreen))
    ∧ ((Layout.csdCustom st).IsShowingShadow env
        = (st.host_supports_client_frame_shadow && !env.window.IsMaximized
            && !env.window.IsFullscreen))
    ∧ ((Layout.csdNative st).GetInputInsets env
        = if (Layout.csdNative st).IsShowingShadow env then Insets.uniform 10
          else Insets.zero)
    ∧ ((Layout.csdCustom st).GetInputInsets env
        = if (Layout.csdCustom st).IsShowingShadow env then Insets.uniform 10
          else Insets.zero)
    ∧ ((Layout.undecorated ust).IsShowingShadow env = false) := by
  refine ⟨rfl, rfl, ?_, ?_, rfl⟩ <;>
    · show LinuxCSDBaseLayout.GetInputInsets st env = _
      unfold LinuxCSDBaseLayout.GetInputInsets
      cases h : LinuxCSDBaseLayout.IsShowingShadow st env <;>
        simp [Layout.IsShowingShadow, h, kResizeBorder, Insets.zero]

/-- C5: `GetRoundedWindowBounds` rounds only the top corners, and only for the
native-frame strategy when the window is not maximized (both top corners get
the frame provider's top corner radius, both bottom corners radius 0); for a
maximized native-frame window, and for the custom-frame and undecorated
strategies in every state, all four corners are square. -/
theorem C5_top_corner_rounding (st : CSDState) (env : ToolkitEnv) (rr : RRect)
    (h : (Layout.csdNative st).GetRoundedWindowBounds env = some rr) :
    ((env.window.IsMaximized = false →
        ∃ fp, LinuxCSDNativeFrameLayout.GetFrameProvider st env = some fp
          ∧ rr.upperLeft = fp.GetTopCornerRadiusDip
          ∧ rr.upperRight = fp.GetTopCornerRadiusDip
          ∧ rr.lowerRight = 0 ∧ rr.lowerLeft = 0)
      ∧ (env.window.IsMaximized = true →
          rr.upperLeft = 0 ∧ rr.upperRight = 0 ∧ rr.lowerRight = 0 ∧ rr.lowerLeft = 0))
    ∧ ((LinuxCSDCustomFrameLayout.GetRoundedWindowBounds st env).upperLeft = 0
        ∧ (LinuxCSDCustomFrameLayout.GetRoundedWindowBounds st env).upperRight = 0
        ∧ (LinuxCSDCustomFrameLayout.GetRoundedWindowBounds st env).lowerRight = 0
        ∧ (LinuxCSDCustomFrameLayout.GetRoundedWindowBounds st env).lowerLeft = 0)
    ∧ ((LinuxUndecoratedFrameLayout.GetRoundedWindowBounds env).upperLeft = 0
        ∧ (LinuxUndecoratedFrameLayout.GetRoundedWindowBounds env).upperRight = 0
        ∧ (LinuxUndecoratedFrameLayout.GetRoundedWindowBounds env).lowerRight = 0
        ∧ (LinuxUndecoratedFrameLayout.GetRoundedWindowBounds env).lowerLeft = 0) := by
  refine ⟨?_, ⟨rfl, rfl, rfl, rfl⟩, ⟨rfl, rfl, rfl, rfl⟩⟩
  simp only [Layout.GetRoundedWindowBounds,
    LinuxCSDNativeFrameLayout.GetRoundedWindowBounds] at h
  cases hwb : LinuxCSDNativeFrameLayout.GetWindowBounds st env with
  | none =>
    rw [hwb] at h
    exact Option.noConfusion h
  | some wb =>
    rw [hwb] at h
    rcases Bool.eq_false_or_eq_true env.window.IsMaximized with hm | hm
    · rw [hm] at h
      have hrr : RRect.setRect wb = rr := Option.some.inj h
      refine ⟨fun hc => by rw [hm] at hc; exact Bool.noConfusion hc, fun _ => ?_⟩
      rw [hrr.symm]
      exact ⟨rfl, rfl, rfl, rfl⟩
    · rw [hm] at h
      cases hfp : LinuxCSDNativeFrameLayout.GetFrameProvider st env with
      | none =>
        rw [hfp] at h
        exact Option.noConfusion h
      | some fp =>
        rw [hfp] at h
        have hrr : RRect.setRectRadii wb fp.GetTopCornerRadiusDip
            fp.GetTopCornerRadiusDip 0 0 = rr := Option.some.inj h
        refine ⟨fun _ => ⟨fp, rfl, ?_, ?_, ?_, ?_⟩,
            fun hc => by rw [hm] at hc; exact Bool.noConfusion hc⟩ <;>
          rw [hrr.symm] <;> rfl

/-- C5 witness: a concrete non-maximized native layout over a present theme. -/
theorem C5_top_corner_rounding_witness :
    ∃ fp, LinuxCSDNativeFrameLayout.GetFrameProvider ⟨false, true⟩ sampleEnv = some fp
      ∧ (RRect.setRectRadii ⟨10, 10, 780, 580⟩ 12 12 0 0).upperLeft = fp.GetTopCornerRadiusDip
      ∧ (RRect.setRectRadii ⟨10, 10, 780, 580⟩ 12 12 0 0).upperRight = fp.GetTopCornerRadiusDip
      ∧ (RRect.setRectRadii ⟨10, 10, 780, 580⟩ 12 12 0 0).lowerRight = 0
      ∧ (RRect.setRectRadii ⟨10, 10, 780, 580⟩ 12 12 0 0).lowerLeft = 0 :=
  (C5_top_corner_rounding ⟨false, true⟩ sampleEnv
      (RRect.setRectRadii ⟨10, 10, 780, 580⟩ 12 12 0 0) (by decide)).1.1 rfl

/-- C6, counterexample: not every query survives an absent toolkit
collaborator.  With the Linux UI theme absent, the native layout's
frame-provider-based insets do not produce a default (`none` models the
unguarded `GetForProfile(nullptr)->` dereference), and with the view's color
provider absent the paint function's color lookup likewise has no default. -/
theorem C6_counterexample_absent_collaborators :
    LinuxCSDNativeFrameLayout.RestoredFrameBorderInsets ⟨false, false⟩ sampleEnvNoToolkit = none
    ∧ PaintRestoredFrameBorderLinux.frameColor none true = none := by
  exact ⟨rfl, rfl⟩

/-- C6, amended: when the window tree host is absent, `SupportsClientFrameShadow`
returns false, the constructor caches false, and the base layout's shadow and
input-inset queries return defaults (no shadow, zero insets); the native
layout's frame-provider-based insets and the paint function's color lookup,
however, dereference the Linux UI theme and the view's color provider without
a guard and so have no default when that collaborator is absent. -/
theorem C6_treehost_absent_defaults (env : ToolkitEnv) (h : env.treeHost = none) :
    LinuxCSDBaseLayout.SupportsClientFrameShadow env = false
    ∧ (LinuxCSDBaseLayout.mk env).host_supports_client_frame_shadow = false
    ∧ LinuxCSDBaseLayout.IsShowingShadow (LinuxCSDBaseLayout.mk env) env = false
    ∧ LinuxCSDBaseLayout.GetInputInsets (LinuxCSDBaseLayout.mk env) env = Insets.zero := by
  have h1 : LinuxCSDBaseLayout.SupportsClientFrameShadow env = false := by
    unfold LinuxCSDBaseLayout.SupportsClientFrameShadow
    rw [h]
  have h2 : LinuxCSDBaseLayout.IsShowingShadow (LinuxCSDBaseLayout.mk env) env = false := by
    unfold LinuxCSDBaseLayout.IsShowingShadow LinuxCSDBaseLayout.mk
    simp [h1]
  refine ⟨h1, h1, h2, ?_⟩
  unfold LinuxCSDBaseLayout.GetInputInsets
  rw [h2]
  rfl

/-- C6 witness: the amended guarantees at a concrete toolkit state with the
tree host absent. -/
theorem C6_treehost_absent_defaults_witness :
    sampleEnvNoTreeHost.treeHost = none
    ∧ (LinuxCSDBaseLayout.SupportsClientFrameShadow sampleEnvNoTreeHost = false
        ∧ (LinuxCSDBaseLayout.mk sampleEnvNoTreeHost).host_supports_client_frame_shadow = false
        ∧ LinuxCSDBaseLayout.IsShowingShadow (LinuxCSDBaseLayout.mk sampleEnvNoTreeHost)
            sampleEnvNoTreeHost = false
        ∧ LinuxCSDBaseLayout.GetInputInsets (LinuxCSDBaseLayout.mk sampleEnvNoTreeHost)
            sampleEnvNoTreeHost = Insets.zero) :=
  ⟨rfl, C6_treehost_absent_defaults sampleEnvNoTreeHost rfl⟩

/-- C7: the tiled flag is the only mutable state of every strategy:
`set_tiled b` makes `tiled` return `b`; setting the flag back restores the
object exactly (so nothing else changed); and every const query returns the
object unchanged. -/
theorem C7_tiled_only_mutable_state (l : Layout) (b : Bool) (q : QueryId)
    (env : ToolkitEnv) :
    ((l.set_tiled b).tiled = b)
    ∧ ((l.set_tiled b).set_tiled l.tiled = l)
    ∧ ((Layout.runQuery l q env).2 = l) := by
  refine ⟨?_, ?_, ?_⟩
  · cases l <;> rfl
  · cases l <;> rfl
  · cases q <;> rfl

/-- C8, counterexample: query results are not recomputed purely from the
current toolkit state — `host_supports_client_frame_shadow_` is sampled at
construction.  Under one and the same current toolkit state (tree host
absent, so shadow support is currently false), a layout constructed while the
host supported shadows still reports a shadow, while one constructed under
the current state does not. -/
theorem C8_counterexample_construction_sampling :
    LinuxCSDBaseLayout.IsShowingShadow (LinuxCSDBaseLayout.mk sampleEnv)
        sampleEnvNoTreeHost = true
    ∧ LinuxCSDBaseLayout.SupportsClientFrameShadow sampleEnvNoTreeHost = false
    ∧ LinuxCSDBaseLayout.IsShowingShadow (LinuxCSDBaseLayout.mk sampleEnvNoTreeHost)
        sampleEnvNoTreeHost = false := by
  exact ⟨rfl, rfl, rfl⟩

/-- C8, amended: every query result is a pure function of the layout's stored
state (the tiled flag and the shadow-support flag sampled at construction)
and the current toolkit state excluding the tree host: no query reads the
current tree-host state at all, so equal stored state and equal current
toolkit state give equal results, while shadow support enters only through
the construction-time sample. -/
theorem C8_queries_ignore_current_treehost (l : Layout) (q : QueryId)
    (env : ToolkitEnv) (th : Option TreeHost) :
    Layout.runQuery l q { env with treeHost := th } = Layout.runQuery l q env := by
  cases l <;> cases q <;> rfl

/-- C9: for every layout strategy, when `RestoredFrameBorderInsets` yields a
value, `GetResizeBorderInsets` returns that value when it is non-empty and
falls back to `GetInputInsets` exactly when it is empty, where empty means all
four sides zero. -/
theorem C9_resize_border_fallback (l : Layout) (env : ToolkitEnv) (r : Insets)
    (h : l.RestoredFrameBorderInsets env = some r) :
    l.GetResizeBorderInsets env
      = some (if r.top = 0 ∧ r.left = 0 ∧ r.bottom = 0 ∧ r.right = 0
              then l.GetInputInsets env else r) := by
  unfold Layout.GetResizeBorderInsets
  rw [h]
  exact congrArg some (if_congr (Insets.IsEmpty_iff r) rfl rfl)

/-- C9 witness: the undecorated layout at a concrete toolkit state, whose
restored insets are all-zero, falls back to the input insets. -/
theorem C9_resize_border_fallback_witness :
    ((Layout.undecorated ⟨false⟩).RestoredFrameBorderInsets sampleEnv
        = some (Insets.TLBR 0 0 0 0))
    ∧ ((Layout.undecorated ⟨false⟩).GetResizeBorderInsets sampleEnv
        = some (if (Insets.TLBR 0 0 0 0).top = 0 ∧ (Insets.TLBR 0 0 0 0).left = 0
                  ∧ (Insets.TLBR 0 0 0 0).bottom = 0 ∧ (Insets.TLBR 0 0 0 0).right = 0
                then (Layout.undecorated ⟨false⟩).GetInputInsets sampleEnv
                else Insets.TLBR 0 0 0 0)) :=
  ⟨rfl, C9_resize_border_fallback (Layout.undecorated ⟨false⟩) sampleEnv
    (Insets.TLBR 0 0 0 0) rfl⟩

/-- C10: the undecorated layout's `GetInputInsets` is a uniform 5-pixel inset,
so its `GetResizeBorderInsets` is a uniform 5-pixel inset in every window
state (nonzero even though the restored-frame insets are always zero), and
`GetTranslucentTopAreaHeight` returns 0 for every strategy. -/
theorem C10_undecorated_resize_and_translucent_height (ust : UndecoratedState)
    (stN stC : CSDState) (env : ToolkitEnv) :
    ((Layout.undecorated ust).GetInputInsets env = Insets.uniform 5)
    ∧ ((Layout.undecorated ust).GetResizeBorderInsets env = some (Insets.uniform 5))
    ∧ ((Layout.undecorated ust).RestoredFrameBorderInsets env = some Insets.zero)
    ∧ ((Layout.undecorated ust).GetTranslucentTopAreaHeight = 0)
    ∧ ((Layout.csdNative stN).GetTranslucentTopAreaHeight = 0)
    ∧ ((Layout.csdCustom stC).GetTranslucentTopAreaHeight = 0) :=
  ⟨rfl, rfl, rfl, rfl, rfl, rfl⟩

end LinuxFrame
